import Mathlib

/-
  Shallow embedding of the idmefv2-transport library (Python) in Lean 4.

  Source files embedded:
    - src/idmeftransport/transports/http.py   (HTTPRequestHandler, HTTPTransport)
    - src/idmeftransport/transports/file.py   (FileTransport)
    - src/idmefv2_transport/transports/kafka.py (KafkaTransport)

  Messages are opaque domain objects; we parameterise over a message type M
  and a fallible decoder. Python exceptions become explicit error values.
-/

namespace IdmefTransport

/-! ## HTTP backend: request handler (http.py, HTTPRequestHandler._do_POST) -/

/-- Model of the caller-supplied queue.Queue: a bounded FIFO. Python's
qsize() is the length of items; maxsize is an int where a value of 0 or
less means unbounded. -/
structure MsgQueue (M : Type) where
  maxsize : Int
  items : List M
  deriving Repr, DecidableEq

/-- One MIME part of the POST body: its declared content type and its
payload bytes (bytes modelled as a list of naturals). -/
structure Part where
  contentType : String
  content : List Nat
  deriving Repr, DecidableEq

/-- Embedding of the first loop of _do_POST (http.py lines 73-79): decode
every part in order with Message.unserialize; the loop aborts on the first
part that fails to decode. The decoder dec stands for the external
Message.unserialize capability. -/
def decodeParts (M : Type) (dec : String → List Nat → Option M) : List Part → Option (List M)
  | [] => some []
  | p :: ps =>
    match dec p.contentType p.content with
    | none => none
    | some m => (decodeParts M dec ps).map (fun ms => m :: ms)

/-- Embedding of _do_POST after MIME parsing (http.py lines 73-103): decode
all parts (415 on any failure), reject an empty batch (422), then under the
queue lock check capacity only when maxsize > 0 (503 when the batch does
not fit) and otherwise enqueue all decoded messages in request order and
answer 204. The whole function is one atomic step, mirroring the single
critical section held via queue.not_full. Returns the HTTP status code and
the queue state after the request. -/
def handlePost (M : Type) (dec : String → List Nat → Option M)
    (parts : List Part) (q : MsgQueue M) : Nat × MsgQueue M :=
  match decodeParts M dec parts with
  | none => (415, q)
  | some msgs =>
    if msgs.isEmpty then (422, q)
    else if q.maxsize > 0 ∧ q.maxsize - q.items.length < msgs.length then (503, q)
    else (204, { q with items := q.items ++ msgs })

/-- Embedding of the preamble of _do_POST (http.py lines 38-52): reject a
path other than "/" with 403, a missing Content-Length with 411, a
non-numeric one with 400, a length of at least 655360 with 413; otherwise
proceed to decoding and admission. contentLength is none when the header is
absent and some none when present but non-numeric. -/
def doPOST (M : Type) (dec : String → List Nat → Option M) (path : String)
    (contentLength : Option (Option Int)) (parts : List Part) (q : MsgQueue M) :
    Nat × MsgQueue M :=
  if path ≠ "/" then (403, q)
  else
    match contentLength with
    | none => (411, q)
    | some none => (400, q)
    | some (some len) =>
      if len ≥ 655360 then (413, q)
      else handlePost M dec parts q

lemma decodeParts_length (M : Type) (dec : String → List Nat → Option M) :
    ∀ (ps : List Part) (ms : List M), decodeParts M dec ps = some ms → ms.length = ps.length := by
  intro ps
  induction ps with
  | nil => intro ms h; simp [decodeParts] at h; simp [← h]
  | cons p ps ih =>
    intro ms h
    simp only [decodeParts] at h
    cases hd : dec p.contentType p.content with
    | none => rw [hd] at h; simp at h
    | some m =>
      rw [hd] at h
      cases hr : decodeParts M dec ps with
      | none => rw [hr] at h; simp at h
      | some ms0 =>
        rw [hr] at h
        simp at h
        subst h
        simp [ih ms0 hr]

/-- A concrete decoder used by witnesses: decodes only the content type
"application/json", to the length of the payload. -/
def sampleDec : String → List Nat → Option Nat :=
  fun ct bs => if ct = "application/json" then some bs.length else none

/-- C1: a POST / request whose parts all decode, with at least one part,
admitted against a queue with sufficient remaining capacity (or an
unbounded queue), enqueues all decoded messages in request order within the
single critical section modelled by handlePost, and responds 204; nothing
is partially accepted because the enqueue of the whole batch is one step of
the embedding, exactly as the source holds queue.not_full across the loop. -/
theorem http_atomic_batch_admission (M : Type) (dec : String → List Nat → Option M)
    (parts : List Part) (q : MsgQueue M) (msgs : List M)
    (hdec : decodeParts M dec parts = some msgs)
    (hne : parts ≠ [])
    (hcap : q.maxsize ≤ 0 ∨ (msgs.length : Int) ≤ q.maxsize - q.items.length) :
    handlePost M dec parts q = (204, { q with items := q.items ++ msgs }) := by
  have hlen : msgs.length = parts.length := decodeParts_length M dec parts msgs hdec
  have hmne : ¬ msgs.isEmpty := by
    cases parts with
    | nil => exact absurd rfl hne
    | cons p ps =>
      cases msgs with
      | nil => simp at hlen
      | cons m ms => simp
  unfold handlePost
  rw [hdec]
  simp only [hmne, if_false]
  have hnot : ¬ (q.maxsize > 0 ∧ q.maxsize - q.items.length < msgs.length) := by
    rintro ⟨hpos, hlt⟩
    rcases hcap with hle | hge
    · omega
    · omega
  simp [hnot]

/-- Witness for C1 at a concrete input: two decodable parts against a
bounded queue of capacity 3 holding one message. -/
theorem http_atomic_batch_admission_witness :
    handlePost Nat sampleDec
      [⟨"application/json", [1, 2]⟩, ⟨"application/json", [7]⟩]
      ⟨3, [9]⟩ = (204, ⟨3, [9, 2, 1]⟩) := by
  exact http_atomic_batch_admission Nat sampleDec
    [⟨"application/json", [1, 2]⟩, ⟨"application/json", [7]⟩]
    ⟨3, [9]⟩ [2, 1] (by decide) (by decide) (by right; decide)

/-- C2: every rejection path of the handler leaves the queue untouched:
a part that fails to decode yields 415, an empty batch yields 422, and a
decodable batch larger than the bounded queue's remaining capacity yields
503; in each case the returned queue is exactly the input queue. -/
theorem http_rejections_leave_queue_unchanged (M : Type)
    (dec : String → List Nat → Option M) (parts : List Part) (q : MsgQueue M) :
    (decodeParts M dec parts = none → handlePost M dec parts q = (415, q)) ∧
    (decodeParts M dec parts = some [] → handlePost M dec parts q = (422, q)) ∧
    (∀ msgs : List M, decodeParts M dec parts = some msgs → msgs ≠ [] →
      q.maxsize > 0 → q.maxsize - q.items.length < msgs.length →
      handlePost M dec parts q = (503, q)) := by
  refine ⟨?_, ?_, ?_⟩
  · intro h; unfold handlePost; rw [h]
  · intro h; unfold handlePost; rw [h]; simp
  · intro msgs h hne hpos hlt
    unfold handlePost
    rw [h]
    have hmne : ¬ msgs.isEmpty := by simpa using hne
    simp only [hmne, if_false]
    have : q.maxsize > 0 ∧ q.maxsize - q.items.length < msgs.length := ⟨hpos, hlt⟩
    simp [this]

/-- Witness for C2 at concrete inputs: an undecodable part gives 415, an
empty part list gives 422, and three decodable messages against a bounded
queue of capacity 2 give 503, the queue identical each time. -/
theorem http_rejections_leave_queue_unchanged_witness :
    handlePost Nat sampleDec [⟨"text/xml", [1]⟩] ⟨2, []⟩ = (415, ⟨2, []⟩) ∧
    handlePost Nat sampleDec [] ⟨2, []⟩ = (422, ⟨2, []⟩) ∧
    handlePost Nat sampleDec
      [⟨"application/json", []⟩, ⟨"application/json", [1]⟩, ⟨"application/json", [1, 2]⟩]
      ⟨2, []⟩ = (503, ⟨2, []⟩) := by
  refine ⟨?_, ?_, ?_⟩
  · exact (http_rejections_leave_queue_unchanged Nat sampleDec
      [⟨"text/xml", [1]⟩] ⟨2, []⟩).1 (by decide)
  · exact (http_rejections_leave_queue_unchanged Nat sampleDec [] ⟨2, []⟩).2.1 (by decide)
  · exact (http_rejections_leave_queue_unchanged Nat sampleDec
      [⟨"application/json", []⟩, ⟨"application/json", [1]⟩, ⟨"application/json", [1, 2]⟩]
      ⟨2, []⟩).2.2 [0, 1, 2] (by decide) (by decide) (by decide) (by decide)

/-- C10: when the queue is unbounded (maxsize of 0 or less, the Python
convention), the capacity test of _do_POST is skipped entirely: the handler
never answers 503, and every fully decoded non-empty batch is admitted with
204, whatever its size. -/
theorem http_unbounded_queue_never_503 (M : Type) (dec : String → List Nat → Option M)
    (parts : List Part) (q : MsgQueue M) (hun : q.maxsize ≤ 0) :
    (handlePost M dec parts q).1 ≠ 503 ∧
    (∀ msgs : List M, decodeParts M dec parts = some msgs → msgs ≠ [] →
      handlePost M dec parts q = (204, { q with items := q.items ++ msgs })) := by
  have hnot : ∀ n : Nat, ¬ (q.maxsize > 0 ∧ q.maxsize - q.items.length < n) := by
    rintro n ⟨hpos, _⟩; omega
  constructor
  · unfold handlePost
    cases h : decodeParts M dec parts with
    | none => simp
    | some msgs =>
      by_cases he : msgs.isEmpty
      · simp [he]
      · simp [he, hnot msgs.length]
  · intro msgs h hne
    unfold handlePost
    rw [h]
    have hmne : ¬ msgs.isEmpty := by simpa using hne
    simp [hmne, hnot msgs.length]

/-- Witness for C10 at a concrete input: an unbounded queue (maxsize 0)
already holding five messages admits a three-message batch with 204. -/
theorem http_unbounded_queue_never_503_witness :
    (handlePost Nat sampleDec
      [⟨"application/json", []⟩, ⟨"application/json", [1]⟩, ⟨"application/json", [1, 2]⟩]
      ⟨0, [5, 5, 5, 5, 5]⟩).1 ≠ 503 ∧
    handlePost Nat sampleDec
      [⟨"application/json", []⟩, ⟨"application/json", [1]⟩, ⟨"application/json", [1, 2]⟩]
      ⟨0, [5, 5, 5, 5, 5]⟩ = (204, ⟨0, [5, 5, 5, 5, 5, 0, 1, 2]⟩) := by
  have h := http_unbounded_queue_never_503 Nat sampleDec
    [⟨"application/json", []⟩, ⟨"application/json", [1]⟩, ⟨"application/json", [1, 2]⟩]
    ⟨0, [5, 5, 5, 5, 5]⟩ (by decide)
  exact ⟨h.1, h.2 [0, 1, 2] (by decide) (by decide)⟩

/-! ## Kafka backend: consumer loop record handling (kafka.py, KafkaTransport._consume) -/

/-- One Kafka record as seen by the consumer loop: its headers (key/value
pairs, values already ASCII-decoded to strings) and its value bytes. -/
structure KafkaRecord where
  headers : List (String × String)
  value : List Nat
  deriving Repr, DecidableEq

/-- Lowercase an ASCII letter, identity on every other character. Models
Python's str.lower() on the ASCII header keys handled by the consumer. -/
def lowerChar (c : Char) : Char :=
  if 'A' ≤ c ∧ c ≤ 'Z' then Char.ofNat (c.toNat + 32) else c

/-- ASCII lowercasing of a whole string, modelling str.lower(). -/
def lowerAscii (s : String) : String := ⟨s.data.map lowerChar⟩

/-- Embedding of the header scan of _consume (kafka.py line 112): the list
comprehension collecting the values of all headers whose key lowercases to
"content-type". -/
def contentTypeHeaders (headers : List (String × String)) : List String :=
  (headers.filter (fun h => lowerAscii h.1 = "content-type")).map Prod.snd

/-- An enqueue operation performed on the shared queue: the message and the
bounded-wait timeout in seconds passed to queue.put. -/
structure EnqueueOp (M : Type) where
  msg : M
  timeout : Nat
  deriving Repr, DecidableEq

/-- Embedding of the per-record body of _consume (kafka.py lines 112-116):
when the record carries exactly one Content-Type header, its value bytes
are decoded by that type and the message is enqueued with a 30 second
bounded wait; with zero or several such headers the record is skipped by
continue. A decode failure raises out of the loop, modelled as an error. -/
def processRecord (M : Type) (dec : String → List Nat → Option M)
    (r : KafkaRecord) : Except Unit (List (EnqueueOp M)) :=
  match contentTypeHeaders r.headers with
  | [ct] =>
    match dec ct r.value with
    | some m => .ok [⟨m, 30⟩]
    | none => .error ()
  | _ => .ok []

/-- C3: the Kafka consumer loop enqueues a record exactly when its headers
contain exactly one Content-Type header: with one such header whose type
decodes the value, the decoded message is enqueued with the 30 second
bounded wait; with zero or more than one such header the record is dropped
and nothing is enqueued for it. -/
theorem kafka_record_header_dispatch (M : Type) (dec : String → List Nat → Option M)
    (r : KafkaRecord) :
    ((contentTypeHeaders r.headers).length ≠ 1 → processRecord M dec r = .ok []) ∧
    (∀ (ct : String) (m : M), contentTypeHeaders r.headers = [ct] →
      dec ct r.value = some m → processRecord M dec r = .ok [⟨m, 30⟩]) := by
  constructor
  · intro h
    unfold processRecord
    cases hc : contentTypeHeaders r.headers with
    | nil => rfl
    | cons ct rest =>
      cases rest with
      | nil => rw [hc] at h; simp at h
      | cons ct2 rest2 => rfl
  · intro ct m hc hd
    simp only [processRecord, hc, hd]

/-- Witness for C3 at concrete records: a record with two Content-Type
headers (case-insensitive match) is dropped, and a record with exactly one
is enqueued as the decoded message with timeout 30. -/
theorem kafka_record_header_dispatch_witness :
    processRecord Nat sampleDec
      ⟨[("Content-Type", "application/json"), ("content-type", "text/xml")], [1]⟩ = .ok [] ∧
    processRecord Nat sampleDec
      ⟨[("Content-Type", "application/json"), ("X-Other", "y")], [1, 2]⟩ = .ok [⟨2, 30⟩] := by
  constructor
  · exact (kafka_record_header_dispatch Nat sampleDec
      ⟨[("Content-Type", "application/json"), ("content-type", "text/xml")], [1]⟩).1 (by decide)
  · exact (kafka_record_header_dispatch Nat sampleDec
      ⟨[("Content-Type", "application/json"), ("X-Other", "y")], [1, 2]⟩).2
      "application/json" 2 (by decide) (by decide)

/-! ## File backend: receive path (file.py, FileTransport._handle_file and _check_files) -/

/-- Outcome of handling one mailbox file in the poller thread. -/
inductive FileOutcome (M : Type)
  | skippedLogged
  | enqueued (op : EnqueueOp M)
  | uncaughtError
  deriving Repr, DecidableEq

/-- Embedding of _handle_file (file.py lines 123-147). The try block covers
opening, locking, draining and deleting the file; any failure there is
caught, logged with warnings.warn and the item skipped. The else clause
then deserializes the collected bytes and enqueues with a 30 second bounded
wait; that deserialization sits outside the try block, so its failure is
not caught and propagates to the caller. readResult abstracts the file
system: an error value for any I/O failure, or the drained bytes. -/
def handleFile (M : Type) (dec : String → List Nat → Option M)
    (contentType : String) (readResult : Except Unit (List Nat)) : FileOutcome M :=
  match readResult with
  | .error _ => .skippedLogged
  | .ok buf =>
    match dec contentType buf with
    | some m => .enqueued ⟨m, 30⟩
    | none => .uncaughtError

/-- Embedding of the directory scan of _check_files (file.py lines 158-166):
each recognised file is passed to _handle_file with no surrounding handler,
so an exception escaping _handle_file aborts the scan and terminates the
poller thread; otherwise the scan proceeds to the next file, collecting the
enqueue operations performed. -/
def scanFiles (M : Type) (dec : String → List Nat → Option M) :
    List (String × Except Unit (List Nat)) → Except Unit (List (EnqueueOp M))
  | [] => .ok []
  | (ct, rr) :: rest =>
    match handleFile M dec ct rr with
    | .skippedLogged => scanFiles M dec rest
    | .enqueued op => (scanFiles M dec rest).map (fun ops => op :: ops)
    | .uncaughtError => .error ()

/-- Counterexample for C4: the claim says a failure to deserialize the
collected bytes after the file has been read and deleted is logged and the
item skipped without terminating the poller. At a concrete scan whose
second file drains fine but does not deserialize, the scan aborts with an
uncaught exception (terminating the poller thread) instead of skipping:
_handle_file's else clause is outside its try block. -/
theorem file_decode_failure_kills_poller :
    handleFile Nat sampleDec "text/xml" (.ok [1, 2]) = .uncaughtError ∧
    scanFiles Nat sampleDec
      [("application/json", .ok [1]), ("text/xml", .ok [1, 2]),
       ("application/json", .ok [])] = .error () := by
  constructor <;> rfl

/-- C4 amended: in the file backend's receive path, an I/O error while
opening, locking, draining or deleting one file is logged and that item is
skipped, and the scan continues to the next file; but a failure to
deserialize the collected bytes after the file has been read and deleted is
not caught: it propagates out of _handle_file and terminates the poller. -/
theorem file_per_item_error_handling (M : Type) (dec : String → List Nat → Option M)
    (ct : String) (rr : Except Unit (List Nat))
    (rest : List (String × Except Unit (List Nat))) :
    (rr = .error () → handleFile M dec ct rr = .skippedLogged ∧
      scanFiles M dec ((ct, rr) :: rest) = scanFiles M dec rest) ∧
    (∀ buf : List Nat, rr = .ok buf → dec ct buf = none →
      handleFile M dec ct rr = .uncaughtError ∧
      scanFiles M dec ((ct, rr) :: rest) = .error ()) ∧
    (∀ (buf : List Nat) (m : M), rr = .ok buf → dec ct buf = some m →
      handleFile M dec ct rr = .enqueued ⟨m, 30⟩) := by
  refine ⟨?_, ?_, ?_⟩
  · intro h
    subst h
    exact ⟨rfl, rfl⟩
  · intro buf hr hd
    subst hr
    have hh : handleFile M dec ct (.ok buf) = .uncaughtError := by
      simp only [handleFile, hd]
    refine ⟨hh, ?_⟩
    unfold scanFiles
    rw [hh]
  · intro buf m hr hd
    subst hr
    simp only [handleFile, hd]

/-- Witness for the amended C4 at concrete inputs: an unreadable file is
skipped and the scan continues; an undecodable drained file terminates the
scan; a decodable one is enqueued with timeout 30. -/
theorem file_per_item_error_handling_witness :
    (handleFile Nat sampleDec "application/json" (.error ()) = .skippedLogged ∧
      scanFiles Nat sampleDec [("application/json", .error ()), ("application/json", .ok [4])] =
        scanFiles Nat sampleDec [("application/json", .ok [4])]) ∧
    (handleFile Nat sampleDec "text/xml" (.ok [9]) = .uncaughtError ∧
      scanFiles Nat sampleDec [("text/xml", .ok [9])] = .error ()) ∧
    handleFile Nat sampleDec "application/json" (.ok [3, 4]) = .enqueued ⟨2, 30⟩ := by
  refine ⟨?_, ?_, ?_⟩
  · exact (file_per_item_error_handling Nat sampleDec "application/json" (.error ())
      [("application/json", .ok [4])]).1 rfl
  · exact (file_per_item_error_handling Nat sampleDec "text/xml" (.ok [9]) []).2.1
      [9] rfl (by decide)
  · exact (file_per_item_error_handling Nat sampleDec "application/json" (.ok [3, 4]) []).2.2
      [3, 4] 2 rfl (by decide)

/-! ## Parameter store (file.py 28-91, http.py 114-177, kafka.py 23-90) -/

/-- Python values appearing in the parameter machinery: None, int, float
and str. Floats are modelled by the rationals; every float manipulated by
the parameter tables is a small integral literal, exactly representable. -/
inductive PVal
  | pnone
  | pint (n : Int)
  | pfloat (q : ℚ)
  | pstr (s : String)
  deriving Repr, DecidableEq

/-- Python types relevant to the allowed_types tuples. -/
inductive PType
  | tint
  | tfloat
  | tstr
  deriving Repr, DecidableEq

/-- Runtime type of a value; None matches none of the listed types. -/
def typeOf : PVal → Option PType
  | .pnone => none
  | .pint _ => some .tint
  | .pfloat _ => some .tfloat
  | .pstr _ => some .tstr

/-- Embedding of isinstance(value, allowed_types): membership of the
value's type in the tuple; an empty tuple matches nothing. -/
def isinst (v : PVal) (allowed : List PType) : Bool :=
  match typeOf v with
  | some t => allowed.contains t
  | none => false

/-- Embedding of the cast_to call. Only the combinations reachable through
the three backends' tables are meaningful (int and float cast to float, int
to int, str to str); other combinations are unreachable because the
isinstance check runs first, and are mapped to the value itself. -/
def castVal : PType → PVal → PVal
  | .tfloat, .pint n => .pfloat (n : ℚ)
  | .tfloat, .pfloat q => .pfloat q
  | .tint, .pint n => .pint n
  | .tstr, .pstr s => .pstr s
  | _, v => v

/-- Python comparison value < value for the type combinations reachable
through the bounds of the parameter tables. -/
def pvalLt : PVal → PVal → Bool
  | .pint a, .pint b => decide (a < b)
  | .pint a, .pfloat b => decide ((a : ℚ) < b)
  | .pfloat a, .pint b => decide (a < (b : ℚ))
  | .pfloat a, .pfloat b => decide (a < b)
  | .pstr a, .pstr b => decide (a < b)
  | _, _ => false

/-- A parameter descriptor as written in the Python tables. minKey and
maxKey distinguish an absent dict key (none) from a key present with value
None (some none) and a key present with a bound (some (some v)): file.py
and kafka.py read them with conf.get, http.py indexes conf directly. -/
structure ParamDescr where
  allowedTypes : List PType
  castTo : Option PType
  minKey : Option (Option PVal)
  maxKey : Option (Option PVal)
  deriving Repr, DecidableEq

/-- Python exceptions raised by the embedded code paths. -/
inductive PyError
  | keyError (key : String)
  | valueError
  | runtimeError
  | invalidLocation (msg : String)
  deriving Repr, DecidableEq

/-- Return value of a Python method: None, or the instance itself. -/
inductive PyRet
  | rnone
  | rself
  deriving Repr, DecidableEq

/-- The mutable public attributes of a transport instance touched by
set_parameter and get_parameter. -/
def ParamStore : Type := List (String × PVal)

instance : DecidableEq ParamStore := by
  unfold ParamStore
  infer_instance

def lookupStore (st : ParamStore) (name : String) : Option PVal :=
  (List.find? (fun p => p.1 = name) st).map Prod.snd

/-- Embedding of setattr(self, name, value) on the attribute map. -/
def updateStore (st : ParamStore) (name : String) (v : PVal) : ParamStore :=
  List.map (fun p => if p.1 = name then (name, v) else p) st

def lookupDescr (table : List (String × ParamDescr)) (name : String) : Option ParamDescr :=
  (List.find? (fun p => p.1 = name) table).map Prod.snd

/-- Embedding of set_parameter as written in file.py lines 68-84 and
kafka.py lines 67-83: unknown name raises KeyError(name); a value whose
type is not in allowed_types raises ValueError; the value is cast; the
bounds are read with conf.get, so an absent min or max key behaves like
None; a violated bound raises ValueError; otherwise the cast value is
stored under the instance lock in one step and the method returns None. -/
def setParameterGet (table : List (String × ParamDescr)) (st : ParamStore)
    (name : String) (v : PVal) : Except PyError (ParamStore × PyRet) :=
  match lookupDescr table name with
  | none => .error (.keyError name)
  | some conf =>
    if ¬ isinst v conf.allowedTypes then .error .valueError
    else
      let v2 := match conf.castTo with
        | some t => castVal t v
        | none => v
      let mn := conf.minKey.join
      let mx := conf.maxKey.join
      if (match mn with | some b => pvalLt v2 b | none => false) ||
         (match mx with | some b => pvalLt b v2 | none => false)
      then .error .valueError
      else .ok (updateStore st name v2, .rnone)

/-- Embedding of set_parameter as written in http.py lines 156-170: the
same flow except that the bounds are read by direct indexing conf['min']
and conf['max'], which raises KeyError when the key is absent; mirroring
Python's short-circuit, conf['min'] is read first, a violated min bound
raises ValueError before conf['max'] is ever read. -/
def setParameterIdx (table : List (String × ParamDescr)) (st : ParamStore)
    (name : String) (v : PVal) : Except PyError (ParamStore × PyRet) :=
  match lookupDescr table name with
  | none => .error (.keyError name)
  | some conf =>
    if ¬ isinst v conf.allowedTypes then .error .valueError
    else
      let v2 := match conf.castTo with
        | some t => castVal t v
        | none => v
      match conf.minKey with
      | none => .error (.keyError "min")
      | some mn =>
        if (match mn with | some b => pvalLt v2 b | none => false)
        then .error .valueError
        else
          match conf.maxKey with
          | none => .error (.keyError "max")
          | some mx =>
            if (match mx with | some b => pvalLt b v2 | none => false)
            then .error .valueError
            else .ok (updateStore st name v2, .rnone)

/-- Embedding of get_parameter (identical in all three backends): unknown
name raises KeyError(name), otherwise the attribute is read under the
instance lock. -/
def getParameter (table : List (String × ParamDescr)) (st : ParamStore)
    (name : String) : Except PyError PVal :=
  match lookupDescr table name with
  | none => .error (.keyError name)
  | some _ => .ok ((lookupStore st name).getD .pnone)

/-- FileTransport.parameters (file.py lines 28-34). 511 is 0o777, 0 is
0o000. -/
def fileParameters : List (String × ParamDescr) :=
  [("interval", ⟨[.tint, .tfloat], some .tfloat, some (some (.pfloat 1)), some none⟩),
   ("delay", ⟨[.tint, .tfloat], some .tfloat, some (some (.pfloat 0)), some none⟩),
   ("uid", ⟨[.tint], some .tint, some (some (.pint (-1))), some none⟩),
   ("gid", ⟨[.tint], some .tint, some (some (.pint (-1))), some none⟩),
   ("permissions", ⟨[.tint], some .tint, some (some (.pint 0)), some (some (.pint 511))⟩)]

/-- Default attribute values set by FileTransport.__init__ (file.py lines
61-66); 416 is 0o640. -/
def fileDefaults : ParamStore :=
  [("interval", .pint 10), ("delay", .pint 0), ("uid", .pint (-1)),
   ("gid", .pint (-1)), ("permissions", .pint 416)]

/-- HTTPTransport.parameters (http.py lines 114-122). The certificate
descriptors carry no min and no max key; the two read-only address
descriptors have an empty allowed_types tuple and cast_to None. -/
def httpParameters : List (String × ParamDescr) :=
  [("interval", ⟨[.tint, .tfloat], some .tfloat, some (some (.pfloat 1)), some none⟩),
   ("delay", ⟨[.tint, .tfloat], some .tfloat, some (some (.pfloat 0)), some none⟩),
   ("my_cert", ⟨[.tstr], some .tstr, none, none⟩),
   ("my_key", ⟨[.tstr], some .tstr, none, none⟩),
   ("ca_cert", ⟨[.tstr], some .tstr, none, none⟩),
   ("requested_address", ⟨[], none, none, none⟩),
   ("server_address", ⟨[], none, none, none⟩)]

/-- Default attribute values set by HTTPTransport.__init__ (http.py lines
145-154). -/
def httpDefaults : ParamStore :=
  [("interval", .pint 10), ("delay", .pint 0), ("my_cert", .pnone),
   ("my_key", .pnone), ("ca_cert", .pnone), ("server_address", .pnone)]

/-- KafkaTransport.parameters (kafka.py lines 23-32); interval has a min
key but no max key at all. -/
def kafkaParameters : List (String × ParamDescr) :=
  [("my_cert", ⟨[.tstr], some .tstr, none, none⟩),
   ("my_key", ⟨[.tstr], some .tstr, none, none⟩),
   ("ca_cert", ⟨[.tstr], some .tstr, none, none⟩),
   ("group_id", ⟨[.tstr], some .tstr, none, none⟩),
   ("client_id", ⟨[.tstr], some .tstr, none, none⟩),
   ("consumer_topics", ⟨[.tstr], some .tstr, none, none⟩),
   ("producer_topic", ⟨[.tstr], some .tstr, none, none⟩),
   ("interval", ⟨[.tint, .tfloat], some .tfloat, some (some (.pfloat 1)), none⟩)]

/-- Default attribute values set by KafkaTransport.__init__ (kafka.py
lines 57-65). -/
def kafkaDefaults : ParamStore :=
  [("interval", .pfloat 5), ("my_cert", .pnone), ("my_key", .pnone),
   ("ca_cert", .pnone), ("group_id", .pnone), ("client_id", .pnone),
   ("consumer_topics", .pstr "idmefv2"), ("producer_topic", .pstr "idmefv2")]

/-- C5 bug evaluation: the HTTP backend's set_parameter indexes conf['min']
directly, so setting any of its declared bound-less parameters with a value
of the allowed type raises KeyError('min') instead of storing the value;
the same call shape succeeds on the Kafka backend, whose set_parameter
reads bounds with conf.get. The file backend meets the claim's other
instances: interval 0 is rejected, permissions 0o777 is stored, an
undeclared name raises KeyError(name). -/
theorem http_set_parameter_boundless_keyerror :
    setParameterIdx httpParameters httpDefaults "my_cert" (.pstr "cert.pem") =
      .error (.keyError "min") ∧
    setParameterGet kafkaParameters kafkaDefaults "my_cert" (.pstr "cert.pem") =
      .ok (updateStore kafkaDefaults "my_cert" (.pstr "cert.pem"), .rnone) ∧
    setParameterGet fileParameters fileDefaults "interval" (.pint 0) =
      .error .valueError ∧
    setParameterGet fileParameters fileDefaults "permissions" (.pint 511) =
      .ok (updateStore fileDefaults "permissions" (.pint 511), .rnone) ∧
    setParameterGet fileParameters fileDefaults "nonexistent" (.pint 1) =
      .error (.keyError "nonexistent") ∧
    getParameter fileParameters
      (updateStore fileDefaults "permissions" (.pint 511)) "permissions" =
      .ok (.pint 511) := by
  exact ⟨rfl, rfl, rfl, rfl, rfl, rfl⟩

/-! ## Construction-time URL validation (file.py 40-46, http.py 124-130,
kafka.py 34-40) -/

/-- Whether the first character list is an initial segment of the second. -/
def listStartsWith : List Char → List Char → Bool
  | [], _ => true
  | _ :: _, [] => false
  | a :: as, b :: bs => a == b && listStartsWith as bs

/-- Whether the first character list occurs contiguously in the second. -/
def listContainsSub : List Char → List Char → Bool
  | pat, [] => listStartsWith pat []
  | pat, b :: bs => listStartsWith pat (b :: bs) || listContainsSub pat bs

/-- Embedding of Python's substring membership test, scheme in 'kafka';
kafka.py line 36 writes result.scheme not in ('kafka'), where ('kafka') is
the plain string 'kafka', not a one-element tuple, so the in operator is
substring containment. -/
def schemeInKafkaString (scheme : String) : Bool :=
  listContainsSub scheme.data "kafka".data

/-- Embedding of KafkaTransport.__init__ validation (kafka.py lines
35-40). netloc is the netloc attribute of urlparse's result: urlparse
always yields a string there, the empty string when the URL carries no
authority, never None, so the value is some s for every URL; the parameter
is kept as an Option to express the code's literal check netloc is None. -/
def kafkaInitValidate (scheme : String) (netloc : Option String) :
    Except PyError Unit :=
  if ¬ schemeInKafkaString scheme then .error (.invalidLocation "Invalid scheme")
  else if netloc = none then .error (.invalidLocation "No bootstrap servers provided")
  else .ok ()

/-- Embedding of FileTransport.__init__ validation (file.py lines 40-46):
isdir and accessRW abstract os.path.isdir(path) and os.access(path, R_OK
bitor W_OK) on the URL's unquoted path. -/
def fileInitValidate (scheme : String) (isdir : Bool) (accessRW : Bool) :
    Except PyError Unit :=
  if scheme ≠ "file" then .error (.invalidLocation "Invalid scheme")
  else if ¬ (isdir && accessRW) then .error (.invalidLocation "Invalid path")
  else .ok ()

/-- Embedding of HTTPTransport.__init__ validation (http.py lines
125-130): hostname is urlparse's hostname attribute, which genuinely is
None when the URL has no host. -/
def httpInitValidate (scheme : String) (hostname : Option String) :
    Except PyError Unit :=
  if ¬ (scheme = "http" ∨ scheme = "https") then .error (.invalidLocation "Invalid scheme")
  else if hostname = none then .error (.invalidLocation "No hostname provided")
  else .ok ()

/-- C6 bug evaluation: the Kafka backend accepts the scheme "ka" (a URL
such as ka://host:9092), because the missing comma in ('kafka') turns the
membership test into a substring test, and accepts a URL with an empty
bootstrap server list (kafka:///topic parses to an empty netloc string,
which is never None); the claim requires both to be rejected with
InvalidLocation. The file and HTTP validations do behave as claimed. -/
theorem kafka_url_validation_accepts_invalid :
    kafkaInitValidate "ka" (some "host:9092") = .ok () ∧
    kafkaInitValidate "kafka" (some "") = .ok () ∧
    schemeInKafkaString "afk" = true ∧
    kafkaInitValidate "mqtt" (some "host:9092") =
      .error (.invalidLocation "Invalid scheme") ∧
    fileInitValidate "files" true true = .error (.invalidLocation "Invalid scheme") ∧
    fileInitValidate "file" false true = .error (.invalidLocation "Invalid path") ∧
    httpInitValidate "ftp" (some "host") = .error (.invalidLocation "Invalid scheme") ∧
    httpInitValidate "http" none = .error (.invalidLocation "No hostname provided") := by
  exact ⟨rfl, rfl, by decide, rfl, rfl, rfl, rfl, rfl⟩

/-! ## Lifecycle (file.py 93-95 and 173-187, http.py 179-245, kafka.py
92-105, 119-147 and 149-166) -/

/-- Result of calling a lifecycle method: normal return with a value, or an
exception raised with the instance state at raise time. -/
inductive CallResult (σ : Type)
  | ok (s : σ) (ret : PyRet)
  | err (s : σ) (e : PyError)
  deriving Repr, DecidableEq

/-- FileTransport lifecycle state: whether self.checker holds a thread
handle (it is None before start and after stop). -/
structure FileState where
  checker : Bool
  deriving Repr, DecidableEq

/-- Embedding of FileTransport.send_message's lifecycle guard and return
(file.py lines 93-121): raises RuntimeError when self.checker is None;
on success the write is performed and the method falls off the end,
returning None. -/
def fileSendMessage (s : FileState) : CallResult FileState :=
  if ¬ s.checker then .err s .runtimeError else .ok s .rnone

/-- Embedding of FileTransport.start (file.py lines 173-179): raises
RuntimeError when a checker thread already exists, otherwise clears the
shutdown event, launches the poller and returns None. -/
def fileStart (s : FileState) : CallResult FileState :=
  if s.checker then .err s .runtimeError else .ok ⟨true⟩ .rnone

/-- Embedding of FileTransport.stop (file.py lines 181-187): raises
RuntimeError when no checker thread exists, otherwise signals shutdown,
joins the thread, drops the handle and returns None. -/
def fileStop (s : FileState) : CallResult FileState :=
  if ¬ s.checker then .err s .runtimeError else .ok ⟨false⟩ .rnone

/-- HTTPTransport lifecycle state: the self.started flag. -/
structure HttpState where
  started : Bool
  deriving Repr, DecidableEq

/-- Embedding of HTTPTransport.send_message's lifecycle guard and return
(http.py lines 179-201): raises RuntimeError when not started; on success
the POST is issued and the method returns self. -/
def httpSendMessage (s : HttpState) : CallResult HttpState :=
  if ¬ s.started then .err s .runtimeError else .ok s .rself

/-- Embedding of HTTPTransport.start (http.py lines 203-230): raises
RuntimeError when already started, otherwise launches the server when a
queue was supplied, sets started and returns None. -/
def httpStart (s : HttpState) : CallResult HttpState :=
  if s.started then .err s .runtimeError else .ok ⟨true⟩ .rnone

/-- Embedding of HTTPTransport.stop (http.py lines 232-245): raises
RuntimeError when not started, otherwise shuts the server down, clears
started and returns None. -/
def httpStop (s : HttpState) : CallResult HttpState :=
  if ¬ s.started then .err s .runtimeError else .ok ⟨false⟩ .rnone

/-- KafkaTransport lifecycle state: the started flag and whether consumer
and producer handles exist. -/
structure KafkaState where
  started : Bool
  consumer : Bool
  producer : Bool
  deriving Repr, DecidableEq

/-- Embedding of KafkaTransport.send_message's guards and return (kafka.py
lines 92-105): raises RuntimeError when not started or when no producer
exists; on success the record is published, flushed, and self returned. -/
def kafkaSendMessage (s : KafkaState) : CallResult KafkaState :=
  if ¬ s.started then .err s .runtimeError
  else if ¬ s.producer then .err s .runtimeError
  else .ok s .rself

/-- Embedding of KafkaTransport.start (kafka.py lines 119-147): raises
RuntimeError when already started; creates a consumer thread when a queue
and consumer topics are configured and a producer when a producer topic is
configured; raises RuntimeError when neither exists (no handle was created
at that point, so the state is unchanged); otherwise sets started and
returns None. -/
def kafkaStart (s : KafkaState) (hasQueue consumerTopics producerTopic : Bool) :
    CallResult KafkaState :=
  if s.started then .err s .runtimeError
  else
    let c := hasQueue && consumerTopics
    let p := producerTopic
    if ¬ c && ¬ p then .err s .runtimeError
    else .ok ⟨true, c, p⟩ .rnone

/-- Embedding of KafkaTransport.stop (kafka.py lines 149-166): raises
RuntimeError when not started, otherwise signals shutdown, closes the
producer, joins the consumer, clears started and returns None. -/
def kafkaStop (s : KafkaState) : CallResult KafkaState :=
  if ¬ s.started then .err s .runtimeError else .ok ⟨false, false, false⟩ .rnone

/-- C7: on every backend, send_message while not started, start while
started and stop while not started raise (Python RuntimeError, the spec's
NotStarted and AlreadyStarted), and the raise happens before any mutation,
so the instance state carried by the exception is exactly the input state. -/
theorem lifecycle_misuse_fails_state_unchanged
    (fs : FileState) (hs : HttpState) (ks : KafkaState)
    (hasQueue consumerTopics producerTopic : Bool) :
    (fs.checker = false →
      fileSendMessage fs = .err fs .runtimeError ∧
      fileStop fs = .err fs .runtimeError) ∧
    (fs.checker = true → fileStart fs = .err fs .runtimeError) ∧
    (hs.started = false →
      httpSendMessage hs = .err hs .runtimeError ∧
      httpStop hs = .err hs .runtimeError) ∧
    (hs.started = true → httpStart hs = .err hs .runtimeError) ∧
    (ks.started = false →
      kafkaSendMessage ks = .err ks .runtimeError ∧
      kafkaStop ks = .err ks .runtimeError) ∧
    (ks.started = true →
      kafkaStart ks hasQueue consumerTopics producerTopic = .err ks .runtimeError) := by
  refine ⟨?_, ?_, ?_, ?_, ?_, ?_⟩ <;> intro h <;>
    simp [fileSendMessage, fileStop, fileStart, httpSendMessage, httpStop, httpStart,
      kafkaSendMessage, kafkaStop, kafkaStart, h]

/-- Witness for C7 at concrete states: a freshly constructed instance of
each backend rejects send_message and stop, and a started instance rejects
start, leaving the state as it was. -/
theorem lifecycle_misuse_fails_state_unchanged_witness :
    (fileSendMessage ⟨false⟩ = .err ⟨false⟩ .runtimeError ∧
      fileStop ⟨false⟩ = .err ⟨false⟩ .runtimeError) ∧
    fileStart ⟨true⟩ = .err ⟨true⟩ .runtimeError ∧
    (httpSendMessage ⟨false⟩ = .err ⟨false⟩ .runtimeError ∧
      httpStop ⟨false⟩ = .err ⟨false⟩ .runtimeError) ∧
    httpStart ⟨true⟩ = .err ⟨true⟩ .runtimeError ∧
    (kafkaSendMessage ⟨false, false, false⟩ = .err ⟨false, false, false⟩ .runtimeError ∧
      kafkaStop ⟨false, false, false⟩ = .err ⟨false, false, false⟩ .runtimeError) ∧
    kafkaStart ⟨true, true, true⟩ true true true = .err ⟨true, true, true⟩ .runtimeError := by
  have h := lifecycle_misuse_fails_state_unchanged ⟨false⟩ ⟨false⟩ ⟨false, false, false⟩
    true true true
  have h2 := lifecycle_misuse_fails_state_unchanged ⟨true⟩ ⟨true⟩ ⟨true, true, true⟩
    true true true
  exact ⟨h.1 rfl, h2.2.1 rfl, h.2.2.1 rfl, h2.2.2.2.1 rfl, h.2.2.2.2.1 rfl,
    h2.2.2.2.2.2 rfl⟩

/-- C9 bug evaluation: the methods are annotated -> Transport and the spec
says they return self, but set_parameter, start and stop in every backend
and FileTransport.send_message fall off the end of the function body and
return None; only the HTTP and Kafka send_message actually return self, so
call chaining breaks everywhere else. -/
theorem methods_return_none_not_self :
    setParameterGet fileParameters fileDefaults "interval" (.pint 5) =
      .ok (updateStore fileDefaults "interval" (.pfloat 5), .rnone) ∧
    setParameterIdx httpParameters httpDefaults "interval" (.pint 5) =
      .ok (updateStore httpDefaults "interval" (.pfloat 5), .rnone) ∧
    fileStart ⟨false⟩ = .ok ⟨true⟩ .rnone ∧
    fileStop ⟨true⟩ = .ok ⟨false⟩ .rnone ∧
    fileSendMessage ⟨true⟩ = .ok ⟨true⟩ .rnone ∧
    httpStart ⟨false⟩ = .ok ⟨true⟩ .rnone ∧
    httpStop ⟨true⟩ = .ok ⟨false⟩ .rnone ∧
    kafkaStop ⟨true, true, true⟩ = .ok ⟨false, false, false⟩ .rnone ∧
    httpSendMessage ⟨true⟩ = .ok ⟨true⟩ .rself ∧
    kafkaSendMessage ⟨true, false, true⟩ = .ok ⟨true, false, true⟩ .rself ∧
    PyRet.rnone ≠ PyRet.rself := by
  exact ⟨rfl, rfl, rfl, rfl, rfl, rfl, rfl, rfl, rfl, rfl, by decide⟩

/-! ## Per-iteration re-read of tunable parameters (file.py 149-171,
kafka.py 107-117 and 119-138) -/

/-- Value of the interval attribute in a parameter store. -/
def intervalOf (st : ParamStore) : PVal :=
  (lookupStore st "interval").getD .pnone

/-- Embedding of the wait at the end of each iteration of
FileTransport._check_files (file.py lines 168-170): the loop re-reads
self.interval under the instance lock on every iteration, so over a trace
of per-iteration parameter stores, the wait of iteration i uses the store
of iteration i. -/
def fileLoopWaits (trace : List ParamStore) : List PVal :=
  trace.map intervalOf

/-- Embedding of the capture in KafkaTransport.start (kafka.py lines
123-124 and 136-137): start() reads self.interval once, under the lock,
and passes it to the _consume thread as a positional argument. -/
def kafkaStartInterval (st : ParamStore) : PVal := intervalOf st

/-- Embedding of the poll in KafkaTransport._consume (kafka.py line 110):
every iteration polls with the interval argument captured at start, never
re-reading the attribute, whatever the per-iteration stores hold. -/
def kafkaLoopPolls (captured : PVal) (trace : List ParamStore) : List PVal :=
  trace.map (fun _ => captured)

/-- Counterexample for C8 as stated: with the Kafka consumer running and
set_parameter changing interval from the default 5.0 to 99.0 before the
second iteration, the second poll still uses 5.0, not the new value; the
claim requires every backend's background thread to pick the new value up
on the following iteration. -/
theorem kafka_interval_captured_at_start :
    kafkaLoopPolls (kafkaStartInterval kafkaDefaults)
      [kafkaDefaults, updateStore kafkaDefaults "interval" (.pfloat 99)] =
      [.pfloat 5, .pfloat 5] ∧
    intervalOf (updateStore kafkaDefaults "interval" (.pfloat 99)) = .pfloat 99 ∧
    (.pfloat 5 : PVal) ≠ .pfloat 99 := by
  exact ⟨rfl, rfl, by decide⟩

/-- C8 amended: the file backend's poller does re-read interval under the
instance lock once per iteration, so iteration i waits on the value the
store holds at iteration i; the Kafka consumer instead polls every
iteration with the single interval value captured by start(), so a
set_parameter made while it runs never takes effect until the thread is
restarted. -/
theorem param_reread_per_iteration (trace : List ParamStore) (st0 : ParamStore)
    (i : Nat) :
    (fileLoopWaits trace).get? i = (trace.get? i).map intervalOf ∧
    (kafkaLoopPolls (kafkaStartInterval st0) trace).get? i =
      (trace.get? i).map (fun _ => intervalOf st0) := by
  constructor
  · simp only [fileLoopWaits, List.get?_eq_getElem?, List.getElem?_map]
  · simp only [kafkaLoopPolls, kafkaStartInterval, List.get?_eq_getElem?,
      List.getElem?_map]

end IdmefTransport
